import Mathlib

/-!
Verification of the liability-insurance quote engine: the validator
(`LiabilityClient.validateInput`), the pricing engine
(`LiabilityClient.calculateQuote`), the summary formatter
(`LiabilityClient.formatQuoteSummary`) and the tool handler
(`createLiabilityQuoteTool`). JavaScript numbers are modelled as exact
rationals; `Math.round` is modelled as half-up rounding, which is what it
computes on the nonnegative values arising here. String template pieces
produced by the runtime (number stringification, locale formatting) are
passed in as explicit rendering functions.
-/

/-- The request configuration (interface `LiabilityConfiguration`).
`tariffLine` and `deductibleAmount` are modelled as unrestricted
`String` and `Int` because `validateInput` re-checks both at runtime;
`coverageAmount` is optional. -/
structure LiabilityConfiguration where
  zipCode : String
  tariffLine : String
  familyCoverage : Bool
  dronesCoverage : Bool
  deductibleAmount : Int
  previousInsurance : Bool
  numberOfClaims : Int
  cancelledByInsurer : Bool
  effectiveDate : String
  coverageAmount : Option Int
  deriving DecidableEq

/-- The quote record (interface `LiabilityQuote`). -/
structure LiabilityQuote where
  quoteId : String
  monthlyPremium : ℚ
  annualPremium : ℚ
  currency : String
  coverageSum : Int
  deductible : Int
  territory : String
  includedRisks : List String
  extensions : List String
  validUntil : String
  tariffLine : String
  familyCoverage : Bool
  deriving DecidableEq

/-- The validator result shape of `validateInput`: `errors` is `none`
exactly when no error accumulated. -/
structure ValidationResult where
  valid : Bool
  errors : Option (List String)
  deriving DecidableEq

/-- The `ValidationError` class: a message and the optional detail list. -/
structure ValidationError where
  message : String
  details : Option (List String)
  deriving DecidableEq

/-- The response envelope (interface `LiabilityQuoteResult`). -/
structure LiabilityQuoteResult where
  success : Bool
  quote : Option LiabilityQuote
  error : Option String
  summary : String
  deriving DecidableEq

/-- Modelled from the spec: whether `y` is a leap year, for the calendar
used by date parsing (which the source delegates to the ECMAScript
runtime, not repository code). -/
def isLeapYear (y : Nat) : Bool :=
  (y % 4 == 0 && y % 100 != 0) || y % 400 == 0

/-- Modelled from the spec: the number of days of month `m` of year `y`. -/
def daysInMonth (y m : Nat) : Nat :=
  if m = 2 then (if isLeapYear y then 29 else 28)
  else if m = 4 ∨ m = 6 ∨ m = 9 ∨ m = 11 then 30
  else 31

/-- The numeric value of a decimal digit character. -/
def digitVal (c : Char) : Nat := c.toNat - 48

/-- Modelled from the spec: the validator checks `effectiveDate` with
`new Date(...)` / `isNaN(getTime())`, ECMAScript runtime behaviour that is
not repository code. Following the spec, the date must parse as a valid
calendar date; we model the ISO `YYYY-MM-DD` form, the only form the
upstream input schema admits. -/
def isValidDateString (s : String) : Bool :=
  match s.data with
  | [y1, y2, y3, y4, h1, m1, m2, h2, d1, d2] =>
    y1.isDigit && y2.isDigit && y3.isDigit && y4.isDigit && h1 == '-' &&
    m1.isDigit && m2.isDigit && h2 == '-' && d1.isDigit && d2.isDigit &&
    (let y := ((digitVal y1 * 10 + digitVal y2) * 10 + digitVal y3) * 10 + digitVal y4
     let m := digitVal m1 * 10 + digitVal m2
     let d := digitVal d1 * 10 + digitVal d2
     1 ≤ m && m ≤ 12 && 1 ≤ d && d ≤ daysInMonth y m)
  | _ => false

/-- The error list accumulated by `LiabilityClient.validateInput`, in push
order. `['basic', 'comfort', 'premium'].includes(x)` and the deductible
membership test are written as the corresponding disjunctions; the regular
expression test (five digits, anchored) is modelled as: every character is
a digit, the length disjunct already forcing length five. JavaScript
truthiness makes the coverage-amount block run only for a present, nonzero
value. -/
def validationErrors (p : LiabilityConfiguration) : List String :=
  (if p.zipCode = "" ∨ p.zipCode.length ≠ 5 ∨ p.zipCode.data.all Char.isDigit = false then
    ["Invalid German postal code (must be 5 digits)"] else []) ++
  (if ¬ (p.tariffLine = "basic" ∨ p.tariffLine = "comfort" ∨ p.tariffLine = "premium") then
    ["Invalid tariff line (must be basic, comfort, or premium)"] else []) ++
  (if ¬ (p.deductibleAmount = 0 ∨ p.deductibleAmount = 150 ∨
         p.deductibleAmount = 300 ∨ p.deductibleAmount = 500) then
    ["Invalid deductible amount (must be 0, 150, 300, or 500)"] else []) ++
  (if p.numberOfClaims < 0 then
    ["Number of claims cannot be negative"] else []) ++
  (if p.numberOfClaims > 10 then
    ["Number of claims exceeds maximum allowed (10)"] else []) ++
  (if isValidDateString p.effectiveDate = false then
    ["Invalid effective date format"] else []) ++
  (match p.coverageAmount with
   | some c =>
     if c ≠ 0 then
       (if c < 5000000 ∨ c > 20000000 then
         ["Coverage amount must be between €5,000,000 and €20,000,000"] else [])
     else []
   | none => [])

/-- `LiabilityClient.validateInput`: valid iff no error accumulated, the
`errors` field present only when nonempty. -/
def validateInput (p : LiabilityConfiguration) : ValidationResult :=
  let errors := validationErrors p
  { valid := errors.isEmpty
    errors := if errors.isEmpty then none else some errors }

/-- The `coverageAmounts` record of `calculateQuote`. A lookup at any other
key is `undefined` in the source and unreachable, since the record is only
consulted after validation; modelled as `0`. -/
def coverageAmounts (t : String) : Int :=
  if t = "basic" then 5000000
  else if t = "comfort" then 10000000
  else if t = "premium" then 20000000
  else 0

/-- The `basePremiums` record of `calculateQuote`: basic 5.99,
comfort 9.99, premium 14.99. A lookup at any other key is unreachable
after validation; modelled as `0`. -/
def basePremiums (t : String) : ℚ :=
  if t = "basic" then 5.99
  else if t = "comfort" then 9.99
  else if t = "premium" then 14.99
  else 0

/-- The `deductibleDiscounts` record of `calculateQuote`: 0 maps to 1.0,
150 to 0.9, 300 to 0.85, 500 to 0.8. Any other key is unreachable after
validation; modelled as `1`. -/
def deductibleDiscounts (d : Int) : ℚ :=
  if d = 0 then 1.0
  else if d = 150 then 0.9
  else if d = 300 then 0.85
  else if d = 500 then 0.8
  else 1

/-- The sequential premium adjustments of `calculateQuote`, before
rounding: base, then family ×1.5, drones +2.50, deductible discount,
claims ×(1 + n×0.15) when n > 0, cancellation ×1.3. -/
def rawMonthlyPremium (p : LiabilityConfiguration) : ℚ :=
  let m1 := basePremiums p.tariffLine
  let m2 := if p.familyCoverage then m1 * 1.5 else m1
  let m3 := if p.dronesCoverage then m2 + 2.50 else m2
  let m4 := m3 * deductibleDiscounts p.deductibleAmount
  let m5 := if p.numberOfClaims > 0 then m4 * (1 + (p.numberOfClaims : ℚ) * 0.15) else m4
  if p.cancelledByInsurer then m5 * 1.3 else m5

/-- `Math.round(x * 100) / 100` of the source, on the nonnegative values
arising here: half-up rounding to two decimals. -/
def round2 (x : ℚ) : ℚ := ((⌊x * 100 + 1 / 2⌋ : ℤ) : ℚ) / 100

/-- The resolved coverage sum: `params.coverageAmount ||
coverageAmounts[params.tariffLine]` — JavaScript truthiness falls back to
the tariff default when the override is absent or zero. -/
def resolvedCoverage (p : LiabilityConfiguration) : Int :=
  match p.coverageAmount with
  | some c => if c ≠ 0 then c else coverageAmounts p.tariffLine
  | none => coverageAmounts p.tariffLine

/-- `LiabilityClient.calculateQuote`. The thrown `ValidationError` is the
`Except.error` case; `quoteId` and `validUntil` are the
identifier/timestamp the runtime generates, passed in as parameters. -/
def calculateQuote (p : LiabilityConfiguration) (quoteId validUntil : String) :
    Except ValidationError LiabilityQuote :=
  let validation := validateInput p
  if validation.valid then
    let monthlyPremium := rawMonthlyPremium p
    let annualPremium := monthlyPremium * 12
    Except.ok
      { quoteId := quoteId
        monthlyPremium := round2 monthlyPremium
        annualPremium := round2 annualPremium
        currency := "EUR"
        coverageSum := resolvedCoverage p
        deductible := p.deductibleAmount
        territory := "Worldwide"
        includedRisks := ["personal_injury", "property_damage", "financial_loss"]
        extensions :=
          (if p.dronesCoverage then ["drones_coverage"] else []) ++
          (if p.familyCoverage then ["family_coverage"] else [])
        validUntil := validUntil
        tariffLine := p.tariffLine
        familyCoverage := p.familyCoverage }
  else
    Except.error { message := "Invalid parameters", details := validation.errors }

/-- `LiabilityClient.formatQuoteSummary`. `fmtNumber`, `fmtGrouped` and
`fmtDate` stand for the runtime renderings (number stringification,
`toLocaleString` thousands grouping, `toLocaleDateString`), which are not
repository code. -/
def formatQuoteSummary (fmtNumber : ℚ → String) (fmtGrouped : Int → String)
    (fmtDate : String → String) (quote : LiabilityQuote) : String :=
  let parts : List String :=
    ["Liability Insurance Quote: €" ++ fmtNumber quote.monthlyPremium ++ "/month (€" ++
       fmtNumber quote.annualPremium ++ "/year)",
     "Coverage: €" ++ fmtGrouped quote.coverageSum ++ " " ++ quote.tariffLine] ++
    (if quote.deductible > 0 then ["Deductible: €" ++ toString quote.deductible]
     else ["No deductible"]) ++
    (if quote.familyCoverage then ["Includes family coverage"] else []) ++
    (if quote.extensions.contains "drones_coverage" then ["Includes drone liability"] else []) ++
    ["Territory: " ++ quote.territory,
     "Valid until: " ++ fmtDate quote.validUntil]
  String.intercalate ". " parts ++ "."

/-- The outcomes the tool handler's try/catch distinguishes: a computed
quote, a thrown `ValidationError`, or any other thrown `Error` (carrying
its message). -/
inductive CalcOutcome where
  | ok (quote : LiabilityQuote)
  | thrownValidation (e : ValidationError)
  | thrownOther (message : String)

/-- The response assembly of `createLiabilityQuoteTool`: the success
envelope, the `instanceof ValidationError` branch (whose summary falls
back to the message when `error.details?.join(', ')` is absent or empty,
per JavaScript truthiness), and the catch-all branch. -/
def handleOutcome (fmtNumber : ℚ → String) (fmtGrouped : Int → String)
    (fmtDate : String → String) (outcome : CalcOutcome) : LiabilityQuoteResult :=
  match outcome with
  | CalcOutcome.ok q =>
    { success := true
      quote := some q
      error := none
      summary := formatQuoteSummary fmtNumber fmtGrouped fmtDate q }
  | CalcOutcome.thrownValidation e =>
    let joined := String.intercalate ", " (e.details.getD [])
    { success := false
      quote := none
      error := some ("Validation error: " ++ e.message)
      summary := "Failed to calculate quote: " ++ (if joined = "" then e.message else joined) }
  | CalcOutcome.thrownOther m =>
    { success := false
      quote := none
      error := some m
      summary := "Failed to calculate quote due to an unexpected error" }

/-- The tool handler of `createLiabilityQuoteTool`: run `calculateQuote`
and shape the result through the try/catch of the source. In the source
the only exception this call tree throws is the validator's
`ValidationError`. -/
def liabilityQuoteHandler (fmtNumber : ℚ → String) (fmtGrouped : Int → String)
    (fmtDate : String → String) (p : LiabilityConfiguration)
    (quoteId validUntil : String) : LiabilityQuoteResult :=
  handleOutcome fmtNumber fmtGrouped fmtDate
    (match calculateQuote p quoteId validUntil with
     | Except.ok q => CalcOutcome.ok q
     | Except.error e => CalcOutcome.thrownValidation e)

/-- A fully valid request: comfort tariff, no options. -/
def validRequest : LiabilityConfiguration :=
  { zipCode := "10115", tariffLine := "comfort", familyCoverage := false,
    dronesCoverage := false, deductibleAmount := 0, previousInsurance := false,
    numberOfClaims := 0, cancelledByInsurer := false, effectiveDate := "2025-06-01",
    coverageAmount := none }

/-- A request whose zip code fails validation (four digits). -/
def invalidRequest : LiabilityConfiguration :=
  { zipCode := "1234", tariffLine := "comfort", familyCoverage := false,
    dronesCoverage := false, deductibleAmount := 0, previousInsurance := false,
    numberOfClaims := 0, cancelledByInsurer := false, effectiveDate := "2025-06-01",
    coverageAmount := none }

/-- A request that is valid everywhere, with a coverage amount of zero. -/
def coverageZeroRequest : LiabilityConfiguration :=
  { zipCode := "10115", tariffLine := "comfort", familyCoverage := false,
    dronesCoverage := false, deductibleAmount := 0, previousInsurance := false,
    numberOfClaims := 0, cancelledByInsurer := false, effectiveDate := "2025-06-01",
    coverageAmount := some 0 }

/-- The README worked example: comfort, family coverage, deductible 150,
one claim. -/
def scenario3Request : LiabilityConfiguration :=
  { zipCode := "10115", tariffLine := "comfort", familyCoverage := true,
    dronesCoverage := false, deductibleAmount := 150, previousInsurance := false,
    numberOfClaims := 1, cancelledByInsurer := false, effectiveDate := "2025-06-01",
    coverageAmount := none }

/-- A valid request with both extensions selected. -/
def bothExtensionsRequest : LiabilityConfiguration :=
  { zipCode := "80331", tariffLine := "basic", familyCoverage := true,
    dronesCoverage := true, deductibleAmount := 0, previousInsurance := false,
    numberOfClaims := 0, cancelledByInsurer := false, effectiveDate := "2025-06-01",
    coverageAmount := none }

lemma validateInput_valid_iff (p : LiabilityConfiguration) :
    (validateInput p).valid = true ↔ validationErrors p = [] := by
  simp [validateInput]

lemma validateInput_invalid_iff (p : LiabilityConfiguration) :
    (validateInput p).valid = false ↔ validationErrors p ≠ [] := by
  rw [← Bool.not_eq_true, validateInput_valid_iff]

lemma validateInput_errors_of_invalid (p : LiabilityConfiguration)
    (h : (validateInput p).valid = false) :
    (validateInput p).errors = some (validationErrors p) := by
  have hne : validationErrors p ≠ [] := (validateInput_invalid_iff p).mp h
  simp [validateInput, hne]

lemma validateInput_valid_iff_conditions (p : LiabilityConfiguration) :
    (validateInput p).valid = true ↔
      ((p.zipCode ≠ "" ∧ p.zipCode.length = 5 ∧ p.zipCode.data.all Char.isDigit = true) ∧
       (p.tariffLine = "basic" ∨ p.tariffLine = "comfort" ∨ p.tariffLine = "premium") ∧
       (p.deductibleAmount = 0 ∨ p.deductibleAmount = 150 ∨
        p.deductibleAmount = 300 ∨ p.deductibleAmount = 500) ∧
       0 ≤ p.numberOfClaims ∧ p.numberOfClaims ≤ 10 ∧
       isValidDateString p.effectiveDate = true ∧
       (∀ c, p.coverageAmount = some c → c ≠ 0 → 5000000 ≤ c ∧ c ≤ 20000000)) := by
  rw [validateInput_valid_iff]
  cases hc : p.coverageAmount with
  | none =>
    simp [validationErrors, hc, List.append_eq_nil, not_or, not_lt, Bool.not_eq_false]
    tauto
  | some c =>
    simp [validationErrors, hc, List.append_eq_nil, not_or, not_lt, Bool.not_eq_false]
    tauto

lemma basePremiums_nonneg (t : String) : 0 ≤ basePremiums t := by
  unfold basePremiums
  split_ifs <;> norm_num

lemma deductibleDiscounts_nonneg (d : Int) : 0 ≤ deductibleDiscounts d := by
  unfold deductibleDiscounts
  split_ifs <;> norm_num

lemma rawMonthlyPremium_nonneg (p : LiabilityConfiguration) : 0 ≤ rawMonthlyPremium p := by
  have hb := basePremiums_nonneg p.tariffLine
  have hd := deductibleDiscounts_nonneg p.deductibleAmount
  unfold rawMonthlyPremium
  split_ifs <;> positivity

lemma round2_nonneg (x : ℚ) (hx : 0 ≤ x) : 0 ≤ round2 x := by
  unfold round2
  apply div_nonneg _ (by norm_num)
  have h0 : (0 : ℤ) ≤ ⌊x * 100 + 1 / 2⌋ := Int.floor_nonneg.mpr (by positivity)
  exact_mod_cast h0

lemma intercalate_go_length (s : String) :
    ∀ (l : List String) (acc : String),
      acc.length ≤ (String.intercalate.go acc s l).length := by
  intro l
  induction l with
  | nil => intro acc; exact Nat.le_refl _
  | cons a as ih =>
    intro acc
    calc acc.length ≤ (acc ++ s ++ a).length := by
          simp [String.length_append]
          omega
    _ ≤ _ := ih (acc ++ s ++ a)

lemma length_pos_of_ne_empty (a : String) (ha : a ≠ "") : 0 < a.length := by
  rcases Nat.eq_zero_or_pos a.length with h0 | hpos
  · exfalso
    apply ha
    cases a with
    | mk data =>
      have : data = [] := List.length_eq_zero.mp h0
      simp [this]
  · exact hpos

lemma intercalate_ne_empty (l : List String) (hl : l ≠ [])
    (hne : ∀ s ∈ l, s ≠ "") : String.intercalate ", " l ≠ "" := by
  match l, hl with
  | a :: as, _ =>
    have ha : a ≠ "" := hne a (List.mem_cons_self a as)
    have hpos : 0 < a.length := length_pos_of_ne_empty a ha
    have hlen : a.length ≤ (String.intercalate ", " (a :: as)).length := by
      show a.length ≤ (String.intercalate.go a ", " as).length
      exact intercalate_go_length ", " as a
    intro hemp
    rw [hemp] at hlen
    have hz : ("" : String).length = 0 := rfl
    omega

lemma validationErrors_mem_ne_empty (p : LiabilityConfiguration) :
    ∀ s ∈ validationErrors p, s ≠ "" := by
  intro s hs hempty
  subst hempty
  cases hc : p.coverageAmount with
  | none => simp [validationErrors, hc] at hs
  | some c =>
    simp only [validationErrors, hc] at hs
    revert hs
    repeat' split
    all_goals simp

lemma handler_on_invalid (fm : ℚ → String) (fg : Int → String) (fd : String → String)
    (p : LiabilityConfiguration) (qid vu : String)
    (h : (validateInput p).valid = false) :
    liabilityQuoteHandler fm fg fd p qid vu =
      { success := false
        quote := none
        error := some "Validation error: Invalid parameters"
        summary := "Failed to calculate quote: " ++
          String.intercalate ", " (validationErrors p) } := by
  have herr : (validateInput p).errors = some (validationErrors p) :=
    validateInput_errors_of_invalid p h
  have hne : validationErrors p ≠ [] := (validateInput_invalid_iff p).mp h
  have hj : String.intercalate ", " (validationErrors p) ≠ "" :=
    intercalate_ne_empty _ hne (validationErrors_mem_ne_empty p)
  simp only [liabilityQuoteHandler, calculateQuote, h, Bool.false_eq_true, if_false,
    handleOutcome, herr, Option.getD]
  rw [if_neg hj]
  rfl

/-- The quote produced for a validated request. -/
lemma calculateQuote_ok (p : LiabilityConfiguration) (qid vu : String)
    (h : (validateInput p).valid = true) :
    calculateQuote p qid vu = Except.ok
      { quoteId := qid
        monthlyPremium := round2 (rawMonthlyPremium p)
        annualPremium := round2 (rawMonthlyPremium p * 12)
        currency := "EUR"
        coverageSum := resolvedCoverage p
        deductible := p.deductibleAmount
        territory := "Worldwide"
        includedRisks := ["personal_injury", "property_damage", "financial_loss"]
        extensions := (if p.dronesCoverage then ["drones_coverage"] else []) ++
          (if p.familyCoverage then ["family_coverage"] else [])
        validUntil := vu
        tariffLine := p.tariffLine
        familyCoverage := p.familyCoverage } := by
  simp [calculateQuote, h]

/-- C3: `calculateQuote` fails, with a `ValidationError` carrying exactly
the ordered error list produced by `validateInput`, precisely when
`validateInput` reports the request invalid; when validation succeeds it
always returns a quote. -/
theorem calculateQuote_validation_gate (p : LiabilityConfiguration) (qid vu : String) :
    ((validateInput p).valid = false ↔
      calculateQuote p qid vu =
        Except.error { message := "Invalid parameters", details := (validateInput p).errors }) ∧
    ((validateInput p).valid = true ↔ ∃ q, calculateQuote p qid vu = Except.ok q) := by
  cases hv : (validateInput p).valid <;> simp [calculateQuote, hv]

lemma filterMap_cons (b : Bool) (m : String) (rest : List (Bool × String)) :
    List.map (fun c => c.2) (List.filter (fun c => c.1) ((b, m) :: rest))
      = (if b = true then [m] else []) ++
          List.map (fun c => c.2) (List.filter (fun c => c.1) rest) := by
  cases b <;> simp

/-- C4: the seven checks are all evaluated, never short-circuited: the
error list is exactly the messages of the violated checks, filtered in the
fixed check order (zip code, tariff line, deductible, claims negative,
claims exceeds 10, effective date, coverage amount), and the result is
valid exactly when nothing accumulated. -/
theorem validateInput_checks_in_order (p : LiabilityConfiguration) :
    (validationErrors p =
      (List.filter (fun c => c.1)
        [(decide (p.zipCode = "" ∨ p.zipCode.length ≠ 5 ∨
            p.zipCode.data.all Char.isDigit = false),
          "Invalid German postal code (must be 5 digits)"),
         (decide (¬ (p.tariffLine = "basic" ∨ p.tariffLine = "comfort" ∨
            p.tariffLine = "premium")),
          "Invalid tariff line (must be basic, comfort, or premium)"),
         (decide (¬ (p.deductibleAmount = 0 ∨ p.deductibleAmount = 150 ∨
            p.deductibleAmount = 300 ∨ p.deductibleAmount = 500)),
          "Invalid deductible amount (must be 0, 150, 300, or 500)"),
         (decide (p.numberOfClaims < 0), "Number of claims cannot be negative"),
         (decide (p.numberOfClaims > 10), "Number of claims exceeds maximum allowed (10)"),
         (decide (isValidDateString p.effectiveDate = false), "Invalid effective date format"),
         ((match p.coverageAmount with
           | some c => decide (c ≠ 0) && decide (c < 5000000 ∨ c > 20000000)
           | none => false),
          "Coverage amount must be between €5,000,000 and €20,000,000")]).map
        (fun c => c.2)) ∧
    ((validateInput p).valid = true ↔ validationErrors p = []) := by
  refine ⟨?_, validateInput_valid_iff p⟩
  rw [filterMap_cons, filterMap_cons, filterMap_cons, filterMap_cons, filterMap_cons,
      filterMap_cons, filterMap_cons]
  have hseg : (if ((match p.coverageAmount with
        | some c => decide (c ≠ 0) && decide (c < 5000000 ∨ c > 20000000)
        | none => false) = true) then
          ["Coverage amount must be between €5,000,000 and €20,000,000"] else ([] : List String))
      = (match p.coverageAmount with
         | some c =>
           if c ≠ 0 then
             (if c < 5000000 ∨ c > 20000000 then
               ["Coverage amount must be between €5,000,000 and €20,000,000"] else [])
           else []
         | none => []) := by
    cases hc : p.coverageAmount with
    | none => simp
    | some c =>
      by_cases h7 : c ≠ 0 <;> by_cases h8 : (c < 5000000 ∨ c > 20000000) <;>
        simp [h7, h8]
  rw [hseg]
  simp only [validationErrors, decide_eq_true_eq, List.filter_nil, List.map_nil,
    List.append_nil, List.append_assoc]

/-- C2 counterexample: `coverageAmount = 0` is present and lies outside
the range, yet `validateInput` accepts the request and reports no coverage
error — JavaScript truthiness of `if (params.coverageAmount)` skips the
range check for zero. -/
theorem coverageAmount_zero_escapes_range_check :
    coverageZeroRequest.coverageAmount = some 0 ∧
    ((0 : ℤ) < 5000000 ∨ (0 : ℤ) > 20000000) ∧
    (validateInput coverageZeroRequest).valid = true ∧
    "Coverage amount must be between €5,000,000 and €20,000,000" ∉
      validationErrors coverageZeroRequest := by
  refine ⟨rfl, Or.inl (by norm_num), by decide, by decide⟩

/-- C2 (amended): the coverage-amount error is reported exactly when
`coverageAmount` is present, nonzero, and outside [5,000,000, 20,000,000];
when it is absent, zero, or in range, the error is not reported. -/
theorem coverage_error_iff (p : LiabilityConfiguration) :
    ("Coverage amount must be between €5,000,000 and €20,000,000" ∈ validationErrors p) ↔
      (∃ c, p.coverageAmount = some c ∧ c ≠ 0 ∧ (c < 5000000 ∨ c > 20000000)) := by
  cases hc : p.coverageAmount with
  | none => simp [validationErrors, hc]
  | some c =>
    by_cases h7 : c ≠ 0 <;> by_cases h8 : (c < 5000000 ∨ c > 20000000) <;>
      simp [validationErrors, hc, h7, h8]

/-- C1: on the README worked example the code returns a monthly premium of
15.51 but an annual premium of 186.11, not the documented 186.12: the
annual premium is the rounding of twelve times the unrounded intermediate
15.509475, not twelve times the already-rounded monthly premium. The
rounded results of the exact rational model agree with IEEE double
arithmetic at this input. -/
theorem scenario3_premiums :
    Except.map (fun q => (q.monthlyPremium, q.annualPremium))
        (calculateQuote scenario3Request "quoteId" "validUntil")
      = Except.ok ((15.51 : ℚ), (186.11 : ℚ)) ∧
    (186.11 : ℚ) ≠ 15.51 * 12 ∧
    rawMonthlyPremium scenario3Request = 15.509475 := by
  have hv : (validateInput scenario3Request).valid = true := by decide
  have hraw : rawMonthlyPremium scenario3Request = 15.509475 := by
    simp only [rawMonthlyPremium, scenario3Request, basePremiums, deductibleDiscounts,
      String.reduceEq, Int.reduceEq, if_true, if_false, reduceIte]
    norm_num
  refine ⟨?_, by norm_num, hraw⟩
  rw [calculateQuote_ok scenario3Request "quoteId" "validUntil" hv]
  simp only [Except.map, hraw]
  norm_num [round2]

/-- C6: for a validated request the quote's extension list contains
`drones_coverage` iff drones coverage was requested, `family_coverage` iff
family coverage was requested, nothing else, and drones precedes family
when both are present. -/
theorem quote_extensions_spec (p : LiabilityConfiguration) (qid vu : String)
    (h : (validateInput p).valid = true) :
    ∃ q, calculateQuote p qid vu = Except.ok q ∧
      (("drones_coverage" ∈ q.extensions) ↔ p.dronesCoverage = true) ∧
      (("family_coverage" ∈ q.extensions) ↔ p.familyCoverage = true) ∧
      (∀ e ∈ q.extensions, e = "drones_coverage" ∨ e = "family_coverage") ∧
      (p.dronesCoverage = true → p.familyCoverage = true →
        q.extensions = ["drones_coverage", "family_coverage"]) := by
  refine ⟨_, calculateQuote_ok p qid vu h, ?_, ?_, ?_, ?_⟩ <;>
    cases hd : p.dronesCoverage <;> cases hf : p.familyCoverage <;> simp

/-- C6 witness at a concrete request with both extensions. -/
theorem quote_extensions_spec_witness :
    ∃ q, calculateQuote bothExtensionsRequest "q1" "v1" = Except.ok q ∧
      (("drones_coverage" ∈ q.extensions) ↔ bothExtensionsRequest.dronesCoverage = true) ∧
      (("family_coverage" ∈ q.extensions) ↔ bothExtensionsRequest.familyCoverage = true) ∧
      (∀ e ∈ q.extensions, e = "drones_coverage" ∨ e = "family_coverage") ∧
      (bothExtensionsRequest.dronesCoverage = true → bothExtensionsRequest.familyCoverage = true →
        q.extensions = ["drones_coverage", "family_coverage"]) :=
  quote_extensions_spec bothExtensionsRequest "q1" "v1" (by decide)

/-- C9: every request that passes validation yields a quote whose monthly
premium, and hence annual premium, is nonnegative. -/
theorem calculateQuote_premiums_nonneg (p : LiabilityConfiguration) (qid vu : String)
    (h : (validateInput p).valid = true) :
    ∃ q, calculateQuote p qid vu = Except.ok q ∧
      0 ≤ q.monthlyPremium ∧ 0 ≤ q.annualPremium := by
  refine ⟨_, calculateQuote_ok p qid vu h, ?_, ?_⟩
  · exact round2_nonneg _ (rawMonthlyPremium_nonneg p)
  · exact round2_nonneg _ (mul_nonneg (rawMonthlyPremium_nonneg p) (by norm_num))

/-- C9 witness at a concrete valid request. -/
theorem calculateQuote_premiums_nonneg_witness :
    ∃ q, calculateQuote validRequest "q2" "v2" = Except.ok q ∧
      0 ≤ q.monthlyPremium ∧ 0 ≤ q.annualPremium :=
  calculateQuote_premiums_nonneg validRequest "q2" "v2" (by decide)

/-- C7: holding every other field valid, ten claims are accepted and
eleven rejected; coverage amounts 5,000,000 and 20,000,000 are accepted
while 4,999,999 and 20,000,001 are rejected. -/
theorem validateInput_boundaries (p : LiabilityConfiguration)
    (h : (validateInput p).valid = true) :
    (validateInput { p with numberOfClaims := 10 }).valid = true ∧
    (validateInput { p with numberOfClaims := 11 }).valid = false ∧
    (validateInput { p with coverageAmount := some 5000000 }).valid = true ∧
    (validateInput { p with coverageAmount := some 20000000 }).valid = true ∧
    (validateInput { p with coverageAmount := some 4999999 }).valid = false ∧
    (validateInput { p with coverageAmount := some 20000001 }).valid = false := by
  rw [validateInput_valid_iff_conditions] at h
  obtain ⟨hzip, htar, hded, hcn, hcx, hdate, hcov⟩ := h
  refine ⟨?_, ?_, ?_, ?_, ?_, ?_⟩
  · rw [validateInput_valid_iff_conditions]
    exact ⟨hzip, htar, hded, by norm_num, by norm_num, hdate, hcov⟩
  · rw [Bool.eq_false_iff]
    intro hv
    rw [validateInput_valid_iff_conditions] at hv
    have := hv.2.2.2.2.1
    norm_num at this
  · rw [validateInput_valid_iff_conditions]
    refine ⟨hzip, htar, hded, hcn, hcx, hdate, ?_⟩
    intro c hc hc0
    injection hc with hc
    omega
  · rw [validateInput_valid_iff_conditions]
    refine ⟨hzip, htar, hded, hcn, hcx, hdate, ?_⟩
    intro c hc hc0
    injection hc with hc
    omega
  · rw [Bool.eq_false_iff]
    intro hv
    rw [validateInput_valid_iff_conditions] at hv
    have := hv.2.2.2.2.2.2 4999999 rfl (by norm_num)
    omega
  · rw [Bool.eq_false_iff]
    intro hv
    rw [validateInput_valid_iff_conditions] at hv
    have := hv.2.2.2.2.2.2 20000001 rfl (by norm_num)
    omega

/-- C7 witness at a concrete valid request. -/
theorem validateInput_boundaries_witness :
    (validateInput { validRequest with numberOfClaims := 10 }).valid = true ∧
    (validateInput { validRequest with numberOfClaims := 11 }).valid = false ∧
    (validateInput { validRequest with coverageAmount := some 5000000 }).valid = true ∧
    (validateInput { validRequest with coverageAmount := some 20000000 }).valid = true ∧
    (validateInput { validRequest with coverageAmount := some 4999999 }).valid = false ∧
    (validateInput { validRequest with coverageAmount := some 20000001 }).valid = false :=
  validateInput_boundaries validRequest (by decide)

/-- C8: the summary is its segments joined with a period and space and
terminated by a period; the deductible segment reads the deductible when
positive and "No deductible" otherwise, whatever the runtime renderings
do. -/
theorem formatQuoteSummary_structure (fm : ℚ → String) (fg : Int → String)
    (fd : String → String) (q : LiabilityQuote) :
    ∃ pre post : List String,
      formatQuoteSummary fm fg fd q =
        String.intercalate ". "
          (pre ++
           [if q.deductible > 0 then "Deductible: €" ++ toString q.deductible
            else "No deductible"] ++ post) ++ "." := by
  refine ⟨["Liability Insurance Quote: €" ++ fm q.monthlyPremium ++ "/month (€" ++
            fm q.annualPremium ++ "/year)",
           "Coverage: €" ++ fg q.coverageSum ++ " " ++ q.tariffLine],
          (if q.familyCoverage then ["Includes family coverage"] else []) ++
          (if q.extensions.contains "drones_coverage" then ["Includes drone liability"] else []) ++
          ["Territory: " ++ q.territory, "Valid until: " ++ fd q.validUntil], ?_⟩
  simp only [formatQuoteSummary]
  rw [show (if q.deductible > 0 then ["Deductible: €" ++ toString q.deductible]
      else ["No deductible"])
      = [if q.deductible > 0 then "Deductible: €" ++ toString q.deductible
         else "No deductible"] from by split <;> rfl]
  simp [List.append_assoc]

/-- C5: when validation fails, the handler answers with success false,
the error field "Validation error: " followed by the exception message,
and the summary "Failed to calculate quote: " followed by the comma-joined
error list; any other exception yields success false, the raw message as
error, and the fixed generic summary. -/
theorem handler_failure_envelope (fm : ℚ → String) (fg : Int → String)
    (fd : String → String) (p : LiabilityConfiguration) (qid vu : String)
    (h : (validateInput p).valid = false) :
    liabilityQuoteHandler fm fg fd p qid vu =
      { success := false
        quote := none
        error := some ("Validation error: " ++ "Invalid parameters")
        summary := "Failed to calculate quote: " ++
          String.intercalate ", " (validationErrors p) } ∧
    (∀ m, handleOutcome fm fg fd (CalcOutcome.thrownOther m) =
      { success := false
        quote := none
        error := some m
        summary := "Failed to calculate quote due to an unexpected error" }) :=
  ⟨handler_on_invalid fm fg fd p qid vu h, fun _ => rfl⟩

/-- C5 witness at a concrete invalid request and concrete renderings. -/
theorem handler_failure_envelope_witness :
    liabilityQuoteHandler (fun _ => "n") (fun _ => "g") (fun _ => "d") invalidRequest "q3" "v3" =
      { success := false
        quote := none
        error := some ("Validation error: " ++ "Invalid parameters")
        summary := "Failed to calculate quote: " ++
          String.intercalate ", " (validationErrors invalidRequest) } ∧
    (∀ m, handleOutcome (fun _ => "n") (fun _ => "g") (fun _ => "d")
        (CalcOutcome.thrownOther m) =
      { success := false
        quote := none
        error := some m
        summary := "Failed to calculate quote due to an unexpected error" }) :=
  handler_failure_envelope (fun _ => "n") (fun _ => "g") (fun _ => "d")
    invalidRequest "q3" "v3" (by decide)

/-- C10: whenever validation fails the thrown `ValidationError` carries
the constant message "Invalid parameters", so the envelope's error field
is always exactly "Validation error: Invalid parameters"; the individual
rule messages reach only the summary field. -/
theorem validation_error_message_constant (fm : ℚ → String) (fg : Int → String)
    (fd : String → String) (p : LiabilityConfiguration) (qid vu : String)
    (h : (validateInput p).valid = false) :
    (∀ e, calculateQuote p qid vu = Except.error e → e.message = "Invalid parameters") ∧
    (liabilityQuoteHandler fm fg fd p qid vu).error =
      some "Validation error: Invalid parameters" ∧
    (liabilityQuoteHandler fm fg fd p qid vu).summary =
      "Failed to calculate quote: " ++ String.intercalate ", " (validationErrors p) := by
  refine ⟨?_, ?_, ?_⟩
  · intro e he
    simp [calculateQuote, h] at he
    rw [← he]
  · rw [handler_on_invalid fm fg fd p qid vu h]
  · rw [handler_on_invalid fm fg fd p qid vu h]

/-- C10 witness at a concrete invalid request and concrete renderings. -/
theorem validation_error_message_constant_witness :
    (∀ e, calculateQuote invalidRequest "q4" "v4" = Except.error e →
      e.message = "Invalid parameters") ∧
    (liabilityQuoteHandler (fun _ => "x") (fun _ => "y") (fun _ => "z")
      invalidRequest "q4" "v4").error = some "Validation error: Invalid parameters" ∧
    (liabilityQuoteHandler (fun _ => "x") (fun _ => "y") (fun _ => "z")
      invalidRequest "q4" "v4").summary =
      "Failed to calculate quote: " ++ String.intercalate ", " (validationErrors invalidRequest) :=
  validation_error_message_constant (fun _ => "x") (fun _ => "y") (fun _ => "z")
    invalidRequest "q4" "v4" (by decide)
